import Mathlib

/-!
Verification of the response orchestrator and presentation-layer history
logic of a single-file Streamlit application (`src/app.py`).

The embedding models `get_llm_response` as a pure function over an explicit
environment `Env` describing the three external collaborators it touches:
the Streamlit secret store (`st.secrets["OPENAI_API_KEY"]`, which either
returns a value, raises `KeyError`/`FileNotFoundError`, or raises some other
exception), the process environment (`os.getenv`, returning an optional
string), and the remote chat-completion collaborator (`llm.invoke`, which
either returns the completion content or raises an exception carrying a
message).  Alongside its string result the embedded function returns the
list of requests actually issued to the collaborator, so that "the
collaborator is never invoked" is expressible.  Python string truthiness
(`if not openai_api_key`) is modelled by `truthy`, and `str(KeyError(k))`
(which renders as the quoted key) by `py_key_error_str`.

The presentation layer's submission handling (`main`, the
`if user_input and user_input.strip():` branch), the session history list
`st.session_state.response_history`, the clear button, and the display of
`reversed(history[-3:])` are modelled by `process_submission`,
`clear_history` and `displayed_history`.
-/

/-- A chat message as built in `get_llm_response`: `SystemMessage(content=...)`
or `HumanMessage(content=...)`. -/
inductive ChatMessage where
  | system (content : String)
  | human (content : String)
deriving DecidableEq, Repr

/-- The sampling-temperature literal `0.7` of the `ChatOpenAI`
configuration, represented exactly as the rational number 7/10 (no
arithmetic is ever performed on it). -/
def temp_0_7 : ℚ := { num := 7, den := 10 }

/-- The request handed to the remote completion collaborator: the
`ChatOpenAI` configuration (`model`, `temperature`, `api_key`) together with
the message list passed to `invoke`.  The temperature literal `0.7` is
represented exactly as the rational `temp_0_7` (no arithmetic is performed
on it). -/
structure LLMRequest where
  model : String
  temperature : ℚ
  api_key : String
  messages : List ChatMessage
deriving DecidableEq, Repr

/-- Outcome of evaluating `st.secrets["OPENAI_API_KEY"]`:
`found v` — the lookup returned the value `v`;
`absent` — it raised `KeyError` or `FileNotFoundError` (the two exception
types the inner `except` clause catches);
`raised msg` — it raised some other exception whose `str` is `msg`, which
propagates to the outer catch-all handler. -/
inductive SecretResult where
  | found (value : String)
  | absent
  | raised (msg : String)
deriving DecidableEq, Repr

/-- The external collaborators of `get_llm_response`. `invoke` models
`llm.invoke(messages)`: `Except.ok content` is a normal return whose
`response.content` is `content`; `Except.error msg` is a raised exception
with `str(e) = msg`. -/
structure Env where
  secrets : SecretResult
  getenv : Option String
  invoke : LLMRequest → Except String String

/-- The `system_messages` dictionary of `get_llm_response`, as an
association list in source order. -/
def system_messages : List (String × String) :=
  [("医療専門家", "あなたは経験豊富な医療専門家です。医学的な知識を基に、正確で分かりやすい情報を提供してください。ただし、具体的な診断や治療の指示ではなく、一般的な健康情報として回答してください。"),
   ("ITエンジニア", "あなたは熟練したITエンジニアです。プログラミング、システム設計、技術的な問題解決に関する専門知識を活用して、技術的で実用的なアドバイスを提供してください。"),
   ("ビジネスコンサルタント", "あなたは経験豊富なビジネスコンサルタントです。戦略立案、業務改善、マーケティング、経営に関する専門知識を活用して、実践的なビジネスアドバイスを提供してください。"),
   ("教育専門家", "あなたは教育分野の専門家です。学習方法、教育理論、スキル開発に関する知識を活用して、効果的な学習アドバイスを提供してください。"),
   ("料理研究家", "あなたは料理研究家です。栄養学、調理技術、食材の知識を活用して、美味しくて健康的な料理に関するアドバイスを提供してください。")]

/-- The five persona identifiers, in the order the radio selector lists
them (identical to the dictionary keys). -/
def persona_keys : List String :=
  ["医療専門家", "ITエンジニア", "ビジネスコンサルタント", "教育専門家", "料理研究家"]

/-- The Persona Registry lookup: `system_messages[expert_type]`.  `none`
models the `KeyError` ("UnknownPersona") raised on a key outside the
dictionary. -/
def instructionFor (expert_type : String) : Option String :=
  system_messages.lookup expert_type

/-- The fixed missing-credential message returned when no non-empty API key
resolves (line 49 of `app.py`). -/
def missing_key_message : String :=
  "エラー: OpenAI APIキーが設定されていません。Streamlit SecretsまたはGitHub Secretsで設定してください。"

/-- The fixed "error occurred" marker of the catch-all handler
(`f"エラーが発生しました: {str(e)}"`, line 69). -/
def error_occurred_marker : String := "エラーが発生しました: "

/-- Rendering of `str(KeyError(k))` in Python: the key in quotes. -/
def py_key_error_str (k : String) : String := "'" ++ k ++ "'"

/-- Python truthiness of the resolved `openai_api_key` value
(`None` and `""` are falsy). -/
def truthy : Option String → Bool
  | none => false
  | some v => v != ""

/-- The body of `get_llm_response` after the credential value
`openai_api_key` has been resolved (lines 48–69 of `app.py`): the
truthiness guard, the persona instruction lookup (whose `KeyError` falls to
the catch-all), the construction of the `ChatOpenAI` request, and the
`invoke` call (whose exception also falls to the catch-all).  Returns the
string result together with the list of requests issued to the
collaborator. -/
def run_with_key (env : Env) (input_text expert_type : String)
    (openai_api_key : Option String) : String × List LLMRequest :=
  if truthy openai_api_key then
    match instructionFor expert_type with
    | none => (error_occurred_marker ++ py_key_error_str expert_type, [])
    | some sys =>
        let req : LLMRequest :=
          { model := "gpt-3.5-turbo"
            temperature := temp_0_7
            api_key := openai_api_key.getD ""
            messages := [ChatMessage.system sys, ChatMessage.human input_text] }
        match env.invoke req with
        | Except.ok content => (content, [req])
        | Except.error e => (error_occurred_marker ++ e, [req])
  else
    (missing_key_message, [])

/-- The orchestrator `get_llm_response(input_text, expert_type)`: resolve the credential from
the secret store, falling back to `os.getenv` only when the secret lookup
raised `KeyError`/`FileNotFoundError`; any other secret-store exception is
caught by the outer handler.  The second component is the list of requests
issued to the remote collaborator (empty when it was never invoked). -/
def get_llm_response (env : Env) (input_text expert_type : String) :
    String × List LLMRequest :=
  match env.secrets with
  | SecretResult.raised msg => (error_occurred_marker ++ msg, [])
  | SecretResult.found v => run_with_key env input_text expert_type (some v)
  | SecretResult.absent => run_with_key env input_text expert_type env.getenv

/-- Whitespace as recognised by Python's default `str.strip()`: the 29
code points CPython's `_PyUnicode_IsWhitespace` accepts — U+0009–U+000D,
U+001C–U+001F, U+0020, U+0085 (NEL), U+00A0 (NBSP), U+1680 (Ogham space),
U+2000–U+200A (the typographic spaces), U+2028, U+2029 (line/paragraph
separators), U+202F, U+205F, and U+3000 (the ideographic full-width
space). -/
def py_isspace (c : Char) : Bool :=
  c == ' ' || c == '\t' || c == '\n' || c == '\x0b' || c == '\x0c' ||
  c == '\r' || c == '\x1c' || c == '\x1d' || c == '\x1e' || c == '\x1f' ||
  c == '\u0085' || c == '\u00A0' || c == '\u1680' ||
  c == '\u2000' || c == '\u2001' || c == '\u2002' || c == '\u2003' ||
  c == '\u2004' || c == '\u2005' || c == '\u2006' || c == '\u2007' ||
  c == '\u2008' || c == '\u2009' || c == '\u200A' || c == '\u2028' ||
  c == '\u2029' || c == '\u202F' || c == '\u205F' || c == '\u3000'

/-- Python's `user_input.strip()`: remove leading and trailing whitespace
(in the `py_isspace` sense, Unicode spaces included). -/
def py_strip (s : String) : String :=
  ⟨((s.data.dropWhile py_isspace).reverse.dropWhile py_isspace).reverse⟩

/-- One entry of `st.session_state.response_history`
(`{'expert': ..., 'question': ..., 'response': ...}`). -/
structure Exchange where
  expert : String
  question : String
  response : String
deriving DecidableEq, Repr

/-- The history at session start (`st.session_state.response_history = []`,
line 84). -/
def initial_history : List Exchange := []

/-- The submission handling of `main` (lines 134–172): when the submitted
text is truthy and its strip is truthy, call `get_llm_response` on the
stripped text and append one exchange to the history; otherwise show a
warning and leave the history untouched.  Returns the new history, the
requests issued to the collaborator, and whether the warning was shown. -/
def process_submission (env : Env) (history : List Exchange)
    (expert_type user_input : String) :
    List Exchange × List LLMRequest × Bool :=
  if user_input != "" && py_strip user_input != "" then
    let r := get_llm_response env (py_strip user_input) expert_type
    (history ++ [⟨expert_type, py_strip user_input, r.1⟩], r.2, false)
  else
    (history, [], true)

/-- The clear button (`st.session_state.response_history = []`, line 187). -/
def clear_history : List Exchange := []

/-- The history entries surfaced for display:
`reversed(response_history[-3:])` (line 179).  Python's `[-3:]` is
`drop (length - 3)` (with the clamping subtraction agreeing on short
lists). -/
def displayed_history (history : List Exchange) : List Exchange :=
  (history.drop (history.length - 3)).reverse

/-- Both credential sources fail to yield a non-empty value: the secret
lookup raises an absence error and the environment variable is unset or
empty, or the secret lookup returns the empty string. -/
def cred_missing (env : Env) : Prop :=
  (env.secrets = SecretResult.absent ∧
    (env.getenv = none ∨ env.getenv = some "")) ∨
  env.secrets = SecretResult.found ""

/-- The credential resolution of `get_llm_response` yields the non-empty
key `k`: either the secret store returned `k`, or it raised an absence
error and the environment variable holds `k`. -/
def cred_resolves (env : Env) (k : String) : Prop :=
  (env.secrets = SecretResult.found k ∨
    (env.secrets = SecretResult.absent ∧ env.getenv = some k)) ∧ k ≠ ""

/-- The IT-engineer instruction string (used by concrete test
environments). -/
def it_sys : String :=
  "あなたは熟練したITエンジニアです。プログラミング、システム設計、技術的な問題解決に関する専門知識を活用して、技術的で実用的なアドバイスを提供してください。"

/-- Environment with no credential anywhere and an echoing collaborator. -/
def env_no_cred : Env := ⟨SecretResult.absent, none, fun _ => Except.ok "OK"⟩

/-- Environment whose secret store holds a key and whose collaborator
returns "OK". -/
def env_ok : Env := ⟨SecretResult.found "sk-test", none, fun _ => Except.ok "OK"⟩

/-- Environment whose collaborator raises an error with message
"timeout". -/
def env_timeout : Env :=
  ⟨SecretResult.found "sk-test", none, fun _ => Except.error "timeout"⟩

/-- Environment where both the secret store and the environment variable
hold (distinct) keys. -/
def env_pref : Env :=
  ⟨SecretResult.found "sk-secret", some "sk-env", fun _ => Except.ok "OK"⟩

/-- Same as `env_pref` but with the environment variable unset. -/
def env_pref' : Env :=
  ⟨SecretResult.found "sk-secret", none, fun _ => Except.ok "OK"⟩

/-- The request `env_pref` produces for input "Hello" with the IT-engineer
persona. -/
def req_pref : LLMRequest :=
  ⟨"gpt-3.5-turbo", temp_0_7, "sk-secret",
    [ChatMessage.system it_sys, ChatMessage.human "Hello"]⟩

example : instructionFor "ITエンジニア" = some it_sys := by decide

example :
    get_llm_response env_no_cred "hello" "ITエンジニア" =
      (missing_key_message, []) := by
  decide

example : py_strip "  こんにちは  " = "こんにちは" := by decide

example : py_strip "　質問　" = "質問" := by decide

example : py_strip "　" = "" := by decide

example :
    get_llm_response env_ok "Hello" "ITエンジニア" =
      (("OK" : String),
        [(⟨"gpt-3.5-turbo", temp_0_7, "sk-test",
          [ChatMessage.system it_sys, ChatMessage.human "Hello"]⟩ : LLMRequest)]) := by
  decide

/-! ## Helper lemmas -/

lemma truthy_of_ne (k : String) (h : k ≠ "") : truthy (some k) = true := by
  simp [truthy, h]

lemma get_llm_response_cred_missing (env : Env) (t e : String)
    (h : cred_missing env) :
    get_llm_response env t e = (missing_key_message, []) := by
  rcases h with ⟨hs, hg | hg⟩ | hs
  · simp [get_llm_response, hs, run_with_key, truthy, hg]
  · simp [get_llm_response, hs, run_with_key, truthy, hg]
  · simp [get_llm_response, hs, run_with_key, truthy]

lemma get_llm_response_resolves (env : Env) (t e k : String)
    (h : cred_resolves env k) :
    get_llm_response env t e = run_with_key env t e (some k) := by
  obtain ⟨hs | ⟨hs, hg⟩, hk⟩ := h
  · simp [get_llm_response, hs]
  · simp [get_llm_response, hs, hg]

lemma run_with_key_unknown (env : Env) (t e k : String) (hk : k ≠ "")
    (hu : instructionFor e = none) :
    run_with_key env t e (some k) =
      (error_occurred_marker ++ py_key_error_str e, []) := by
  simp [run_with_key, truthy_of_ne k hk, hu]

lemma run_with_key_ok (env : Env) (t e k sys T : String) (hk : k ≠ "")
    (hs : instructionFor e = some sys)
    (hinv : env.invoke ⟨"gpt-3.5-turbo", temp_0_7, k,
      [ChatMessage.system sys, ChatMessage.human t]⟩ = Except.ok T) :
    run_with_key env t e (some k) =
      (T, [⟨"gpt-3.5-turbo", temp_0_7, k,
        [ChatMessage.system sys, ChatMessage.human t]⟩]) := by
  simp [run_with_key, truthy_of_ne k hk, hs, hinv]

lemma run_with_key_err (env : Env) (t e k sys msg : String) (hk : k ≠ "")
    (hs : instructionFor e = some sys)
    (hinv : env.invoke ⟨"gpt-3.5-turbo", temp_0_7, k,
      [ChatMessage.system sys, ChatMessage.human t]⟩ = Except.error msg) :
    run_with_key env t e (some k) =
      (error_occurred_marker ++ msg, [⟨"gpt-3.5-turbo", temp_0_7, k,
        [ChatMessage.system sys, ChatMessage.human t]⟩]) := by
  simp [run_with_key, truthy_of_ne k hk, hs, hinv]

lemma run_with_key_calls (env : Env) (t e k : String) :
    ∀ req ∈ (run_with_key env t e (some k)).2, req.api_key = k := by
  intro req hreq
  simp only [run_with_key] at hreq
  split at hreq
  · split at hreq
    · simp at hreq
    · split at hreq <;>
        · simp at hreq
          subst hreq
          rfl
  · simp at hreq

lemma instructionFor_not_mem (e : String) (h : e ∉ persona_keys) :
    instructionFor e = none := by
  simp only [persona_keys, List.mem_cons, List.not_mem_nil, or_false,
    not_or] at h
  obtain ⟨h1, h2, h3, h4, h5⟩ := h
  have b1 : (e == "医療専門家") = false := beq_eq_false_iff_ne.mpr h1
  have b2 : (e == "ITエンジニア") = false := beq_eq_false_iff_ne.mpr h2
  have b3 : (e == "ビジネスコンサルタント") = false := beq_eq_false_iff_ne.mpr h3
  have b4 : (e == "教育専門家") = false := beq_eq_false_iff_ne.mpr h4
  have b5 : (e == "料理研究家") = false := beq_eq_false_iff_ne.mpr h5
  simp [instructionFor, system_messages, List.lookup, b1, b2, b3, b4, b5]

lemma missing_ne_marker (s : String) :
    missing_key_message ≠ error_occurred_marker ++ s := by
  intro h
  have hd : missing_key_message.data =
      error_occurred_marker.data ++ s.data := by
    rw [h, String.data_append]
  have ht := congrArg (List.take error_occurred_marker.data.length) hd
  rw [List.take_left] at ht
  exact absurd ht (by decide)

lemma submission_appends (env : Env) (h : List Exchange) (e i : String)
    (hi : py_strip i ≠ "") :
    process_submission env h e i =
      (h ++ [⟨e, py_strip i, (get_llm_response env (py_strip i) e).1⟩],
       (get_llm_response env (py_strip i) e).2, false) := by
  have hne : i ≠ "" := by
    intro h0
    subst h0
    exact hi rfl
  simp [process_submission, hne, hi]

lemma temp_0_7_eq : temp_0_7 = 7 / 10 := by
  rw [← Rat.num_div_den temp_0_7]
  norm_num [temp_0_7]

/-! ## Claims -/

/-- C1: for every user text and persona, if the secret-store lookup of
OPENAI_API_KEY and the environment-variable lookup both fail to yield a
non-empty value, `get_llm_response` returns the fixed missing-credential
message and the remote completion collaborator is never invoked (the call
list is empty). -/
theorem C1_missing_credential_no_call (env : Env)
    (input_text expert_type : String) (h : cred_missing env) :
    get_llm_response env input_text expert_type = (missing_key_message, []) :=
  get_llm_response_cred_missing env input_text expert_type h

theorem C1_missing_credential_no_call_witness :
    cred_missing env_no_cred ∧
    get_llm_response env_no_cred "こんにちは" "ITエンジニア" =
      (missing_key_message, []) :=
  ⟨Or.inl ⟨rfl, Or.inl rfl⟩,
   C1_missing_credential_no_call env_no_cred "こんにちは" "ITエンジニア"
     (Or.inl ⟨rfl, Or.inl rfl⟩)⟩

/-- C2: every exception raised during credential resolution (a secret-store
exception other than the absence errors), message construction (the
persona-lookup KeyError), or remote invocation is caught by
`get_llm_response`, which returns a string embedding the exception's
textual description prefixed with the fixed error-occurred marker; being a
total function of its environment, it never raises to its caller. -/
theorem C2_catch_all (env : Env) (input_text expert_type : String) :
    (∀ msg, env.secrets = SecretResult.raised msg →
      get_llm_response env input_text expert_type =
        (error_occurred_marker ++ msg, [])) ∧
    (∀ k, cred_resolves env k → instructionFor expert_type = none →
      get_llm_response env input_text expert_type =
        (error_occurred_marker ++ py_key_error_str expert_type, [])) ∧
    (∀ k sys msg, cred_resolves env k →
      instructionFor expert_type = some sys →
      env.invoke ⟨"gpt-3.5-turbo", temp_0_7, k,
        [ChatMessage.system sys, ChatMessage.human input_text]⟩ =
        Except.error msg →
      get_llm_response env input_text expert_type =
        (error_occurred_marker ++ msg,
         [⟨"gpt-3.5-turbo", temp_0_7, k,
           [ChatMessage.system sys, ChatMessage.human input_text]⟩])) := by
  refine ⟨?_, ?_, ?_⟩
  · intro msg hs
    simp [get_llm_response, hs]
  · intro k hk hu
    rw [get_llm_response_resolves env _ _ k hk]
    exact run_with_key_unknown env _ _ k hk.2 hu
  · intro k sys msg hk hsy hinv
    rw [get_llm_response_resolves env _ _ k hk]
    exact run_with_key_err env _ _ k sys msg hk.2 hsy hinv

theorem C2_catch_all_witness :
    get_llm_response env_timeout "Hello" "ITエンジニア" =
      (error_occurred_marker ++ "timeout",
       [⟨"gpt-3.5-turbo", temp_0_7, "sk-test",
         [ChatMessage.system it_sys, ChatMessage.human "Hello"]⟩]) :=
  (C2_catch_all env_timeout "Hello" "ITエンジニア").2.2 "sk-test" it_sys
    "timeout" ⟨Or.inl rfl, by decide⟩ (by decide) rfl

/-- C3: for every persona in the closed set and every user text, when a
non-empty credential resolves and the collaborator returns text T,
`get_llm_response` returns exactly T unmodified, and the single issued
request carries the fixed model identifier "gpt-3.5-turbo", the sampling
temperature 0.7 (= 7/10), and exactly two messages: the persona's
instruction as the system entry and the user text as the human entry. -/
theorem C3_success_passthrough (env : Env)
    (input_text expert_type k sys T : String)
    (_hp : expert_type ∈ persona_keys)
    (hk : cred_resolves env k)
    (hsys : instructionFor expert_type = some sys)
    (hinv : env.invoke ⟨"gpt-3.5-turbo", temp_0_7, k,
      [ChatMessage.system sys, ChatMessage.human input_text]⟩ =
      Except.ok T) :
    get_llm_response env input_text expert_type =
      (T, [⟨"gpt-3.5-turbo", temp_0_7, k,
        [ChatMessage.system sys, ChatMessage.human input_text]⟩]) ∧
    temp_0_7 = 7 / 10 := by
  constructor
  · rw [get_llm_response_resolves env _ _ k hk]
    exact run_with_key_ok env _ _ k sys T hk.2 hsys hinv
  · exact temp_0_7_eq

theorem C3_success_passthrough_witness :
    get_llm_response env_ok "Hello" "ITエンジニア" =
      (("OK" : String), [⟨"gpt-3.5-turbo", temp_0_7, "sk-test",
        [ChatMessage.system it_sys, ChatMessage.human "Hello"]⟩]) ∧
    temp_0_7 = 7 / 10 :=
  C3_success_passthrough env_ok "Hello" "ITエンジニア" "sk-test" it_sys "OK"
    (by decide) ⟨Or.inl rfl, by decide⟩ (by decide) rfl

/-- C4: for every persona in the closed five-element set, the persona
registry returns a non-empty, persona-specific (pairwise distinct)
instruction string; for every value outside the set the lookup fails
(returns `none`, modelling the UnknownPersona / KeyError failure). -/
theorem C4_persona_registry_total :
    (∀ e ∈ persona_keys,
      instructionFor e ≠ none ∧ instructionFor e ≠ some "") ∧
    (∀ e₁ ∈ persona_keys, ∀ e₂ ∈ persona_keys, e₁ ≠ e₂ →
      instructionFor e₁ ≠ instructionFor e₂) ∧
    (∀ e, e ∉ persona_keys → instructionFor e = none) :=
  ⟨by decide, by decide, instructionFor_not_mem⟩

theorem C4_persona_registry_total_witness :
    instructionFor "医療専門家" ≠ none ∧ instructionFor "弁護士" = none :=
  ⟨(C4_persona_registry_total.1 "医療専門家" (by decide)).1,
   C4_persona_registry_total.2.2 "弁護士" (by decide)⟩

/-- C5: whenever the secret-store lookup yields a value, that value is the
credential used: the behaviour of `get_llm_response` is independent of the
environment variable (consulted only as a fallback), and every request
issued to the collaborator carries the secret-store value as its API
key. -/
theorem C5_secret_precedence (v : String) (g₁ g₂ : Option String)
    (remote : LLMRequest → Except String String)
    (input_text expert_type : String) :
    get_llm_response ⟨SecretResult.found v, g₁, remote⟩
        input_text expert_type =
      get_llm_response ⟨SecretResult.found v, g₂, remote⟩
        input_text expert_type ∧
    ∀ req ∈ (get_llm_response ⟨SecretResult.found v, g₁, remote⟩
        input_text expert_type).2, req.api_key = v :=
  ⟨rfl,
   run_with_key_calls ⟨SecretResult.found v, g₁, remote⟩
     input_text expert_type v⟩

theorem C5_secret_precedence_witness :
    get_llm_response env_pref "Hello" "ITエンジニア" =
      get_llm_response env_pref' "Hello" "ITエンジニア" ∧
    req_pref.api_key = "sk-secret" :=
  ⟨(C5_secret_precedence "sk-secret" (some "sk-env") none
      (fun _ => Except.ok "OK") "Hello" "ITエンジニア").1,
   (C5_secret_precedence "sk-secret" (some "sk-env") none
      (fun _ => Except.ok "OK") "Hello" "ITエンジニア").2 req_pref
     (by decide)⟩

/-- C6: the exchange log starts empty; each submission with non-blank
input appends exactly one exchange {persona, stripped user text, response}
at the end; after three successive such exchanges from the start the log
has length 3 (in insertion order, by the append-at-end shape); the clear
operation resets it to the empty list; and the display surfaces exactly
the three most recent entries, newest first (`reverse.take 3`), hence at
most 3 entries of an arbitrarily longer log. -/
theorem C6_exchange_log :
    initial_history = [] ∧
    (∀ env h e i, py_strip i ≠ "" →
      (process_submission env h e i).1 =
        h ++ [⟨e, py_strip i, (get_llm_response env (py_strip i) e).1⟩]) ∧
    clear_history = [] ∧
    (∀ (env₁ env₂ env₃ : Env) (e₁ e₂ e₃ i₁ i₂ i₃ : String),
      py_strip i₁ ≠ "" → py_strip i₂ ≠ "" → py_strip i₃ ≠ "" →
      ((process_submission env₃
        ((process_submission env₂
          ((process_submission env₁ initial_history e₁ i₁).1)
          e₂ i₂).1) e₃ i₃).1).length = 3) ∧
    (∀ h, displayed_history h = h.reverse.take 3 ∧
      (displayed_history h).length ≤ 3) := by
  refine ⟨rfl, ?_, rfl, ?_, ?_⟩
  · intro env h e i hi
    rw [submission_appends env h e i hi]
  · intro env₁ env₂ env₃ e₁ e₂ e₃ i₁ i₂ i₃ h1 h2 h3
    rw [submission_appends env₁ initial_history e₁ i₁ h1,
      submission_appends env₂ _ e₂ i₂ h2,
      submission_appends env₃ _ e₃ i₃ h3]
    simp [initial_history]
  · intro h
    refine ⟨?_, ?_⟩
    · rw [displayed_history, ← List.take_reverse]
    · rw [displayed_history]
      simp
      omega

theorem C6_exchange_log_witness :
    ((process_submission env_no_cred
      ((process_submission env_no_cred
        ((process_submission env_no_cred initial_history
          "ITエンジニア" "a").1) "ITエンジニア" "b").1)
      "ITエンジニア" "c").1).length = 3 :=
  C6_exchange_log.2.2.2.1 env_no_cred env_no_cred env_no_cred
    "ITエンジニア" "ITエンジニア" "ITエンジニア" "a" "b" "c"
    (by decide) (by decide) (by decide)

/-- C7: the exchange log is appended after every completed call to
`get_llm_response`, success or failure alike, so failure-result strings
(the missing-credential message, or an error-occurred message) are
recorded as response text exactly like successful answers. -/
theorem C7_failures_recorded :
    (∀ env h e i, py_strip i ≠ "" →
      (process_submission env h e i).1 =
        h ++ [⟨e, py_strip i, (get_llm_response env (py_strip i) e).1⟩]) ∧
    (∀ env h e i, py_strip i ≠ "" → cred_missing env →
      (process_submission env h e i).1 =
        h ++ [⟨e, py_strip i, missing_key_message⟩]) ∧
    (∀ h e i msg g remote, py_strip i ≠ "" →
      (process_submission ⟨SecretResult.raised msg, g, remote⟩ h e i).1 =
        h ++ [⟨e, py_strip i, error_occurred_marker ++ msg⟩]) := by
  refine ⟨?_, ?_, ?_⟩
  · intro env h e i hi
    rw [submission_appends env h e i hi]
  · intro env h e i hi hc
    rw [submission_appends env h e i hi,
      get_llm_response_cred_missing env _ _ hc]
  · intro h e i msg g remote hi
    rw [submission_appends _ h e i hi]
    rfl

theorem C7_failures_recorded_witness :
    (process_submission env_no_cred [] "ITエンジニア" "質問").1 =
      [] ++ [⟨"ITエンジニア", py_strip "質問", missing_key_message⟩] :=
  C7_failures_recorded.2.1 env_no_cred [] "ITエンジニア" "質問"
    (by decide) (Or.inl ⟨rfl, Or.inl rfl⟩)

/-- C8: if the secret store yields the empty string for OPENAI_API_KEY,
the environment variable is never consulted: `get_llm_response` returns
the missing-credential failure for every value of the environment
variable, including a non-empty key, and issues no remote call. -/
theorem C8_empty_secret_shadows_env (g : Option String)
    (remote : LLMRequest → Except String String)
    (input_text expert_type : String) :
    get_llm_response ⟨SecretResult.found "", g, remote⟩
        input_text expert_type = (missing_key_message, []) := by
  simp [get_llm_response, run_with_key, truthy]

/-- C9: credential resolution is performed before the persona instruction
lookup: for every expert_type value, including values outside the
five-persona registry, a missing credential yields the missing-credential
result (never an error-occurred string), and the persona-lookup failure
result is produced when a non-empty credential is present. -/
theorem C9_credential_checked_first (env : Env)
    (input_text expert_type : String) :
    (cred_missing env →
      get_llm_response env input_text expert_type =
        (missing_key_message, [])) ∧
    (cred_missing env → ∀ s,
      (get_llm_response env input_text expert_type).1 ≠
        error_occurred_marker ++ s) ∧
    (∀ k, cred_resolves env k → instructionFor expert_type = none →
      get_llm_response env input_text expert_type =
        (error_occurred_marker ++ py_key_error_str expert_type, [])) := by
  refine ⟨fun h => get_llm_response_cred_missing env _ _ h, ?_, ?_⟩
  · intro h s
    rw [get_llm_response_cred_missing env _ _ h]
    exact missing_ne_marker s
  · intro k hk hu
    rw [get_llm_response_resolves env _ _ k hk]
    exact run_with_key_unknown env _ _ k hk.2 hu

theorem C9_credential_checked_first_witness :
    get_llm_response env_no_cred "Hello" "弁護士" =
      (missing_key_message, []) ∧
    get_llm_response env_ok "Hello" "弁護士" =
      (error_occurred_marker ++ py_key_error_str "弁護士", []) :=
  ⟨(C9_credential_checked_first env_no_cred "Hello" "弁護士").1
     (Or.inl ⟨rfl, Or.inl rfl⟩),
   (C9_credential_checked_first env_ok "Hello" "弁護士").2.2 "sk-test"
     ⟨Or.inl rfl, by decide⟩ (by decide)⟩

/-- C10: if the submitted user input is empty or consists only of
whitespace, the presentation layer performs no orchestrator call (no
request reaches the collaborator), the exchange log is unchanged, and the
warning is displayed instead. -/
theorem C10_blank_input_no_call (env : Env) (history : List Exchange)
    (expert_type user_input : String)
    (h : py_strip user_input = "") :
    process_submission env history expert_type user_input =
      (history, [], true) := by
  simp [process_submission, h]

theorem C10_blank_input_no_call_witness :
    process_submission env_no_cred [] "ITエンジニア" " 　 " =
      ([], [], true) :=
  C10_blank_input_no_call env_no_cred [] "ITエンジニア" " 　 " (by decide)
